import Mathlib

/-!
Verification of the retrieval / prompt-construction pipeline of the
`root_cause_identification` service (files `app.py` and `llm.py`).

The embedding is shallow: Python dictionaries holding defect records become a
`Defect` structure whose optional fields model absent keys; `dict.get(k, d)`
becomes `Option.getD`; a bare `dict[k]` access becomes an `Except`-valued
lookup that models the `KeyError`; calling `.get` on a value that is a bare
string (not a dict) models the `AttributeError`.  The two external providers
(the embedding model and the hosted text-generation model) and the two external
text transforms (markdown rendering and HTML sanitization) are passed in as
function parameters, exactly as the spec declares them out of scope.
Similarity scores are modelled as exact rationals.
-/

namespace BugBusters

/-- Accumulating worker for `pySplit`: split on whitespace runs. -/
def splitWsAux : List Char → List Char → List (List Char)
  | [], acc => if acc.isEmpty then [] else [acc.reverse]
  | c :: cs, acc =>
    if c.isWhitespace then
      if acc.isEmpty then splitWsAux cs [] else acc.reverse :: splitWsAux cs []
    else splitWsAux cs (c :: acc)

/-- Python `str.split()` with no argument: split on whitespace runs, dropping
empty pieces. -/
def pySplit (s : String) : List String :=
  (splitWsAux s.data []).map String.mk

/-- Python `str.upper()` (the identifiers here are ASCII). -/
def pyToUpper (s : String) : String := String.mk (s.data.map Char.toUpper)

/-- Python `str.lower()`. -/
def pyToLower (s : String) : String := String.mk (s.data.map Char.toLower)

/-- Python `str.startswith(p)`. -/
def pyStartsWith (p s : String) : Bool := p.data.isPrefixOf s.data

/-- Python `str.strip()`: drop leading and trailing whitespace. -/
def pyTrim (s : String) : String :=
  String.mk (((s.data.dropWhile Char.isWhitespace).reverse.dropWhile
    Char.isWhitespace).reverse)

/-- Python `str.split(sep)` for a one-character separator, keeping empty
pieces (used for `response.split('\n')`). -/
def splitOnChar (sep : Char) : List Char → List (List Char)
  | [] => [[]]
  | c :: cs =>
    if c = sep then [] :: splitOnChar sep cs
    else
      match splitOnChar sep cs with
      | [] => [[c]]
      | h :: t => (c :: h) :: t

def pyLines (s : String) : List String := (splitOnChar '\n' s.data).map String.mk

/-- Fuel-indexed worker for `pyReplace`: replace non-overlapping occurrences
left to right, exactly as Python `str.replace`. -/
def pyReplaceAux (pat rep : List Char) : Nat → List Char → List Char
  | 0, l => l
  | _ + 1, [] => []
  | n + 1, c :: cs =>
    if pat.isPrefixOf (c :: cs) then
      rep ++ pyReplaceAux pat rep n (cs.drop (pat.length - 1))
    else c :: pyReplaceAux pat rep n cs

/-- Python `str.replace(pat, rep)` (for the non-empty patterns used here). -/
def pyReplace (s pat rep : String) : String :=
  String.mk (pyReplaceAux pat.data rep.data s.data.length s.data)

/-- Lexicographic comparison of strings by code point, Python's `<`. -/
def strLtB : List Char → List Char → Bool
  | [], [] => false
  | [], _ :: _ => true
  | _ :: _, [] => false
  | a :: as, b :: bs =>
    if a.toNat < b.toNat then true
    else if b.toNat < a.toNat then false
    else strLtB as bs

/-- Insert `x` into an already sorted list: `x` goes after the elements whose
key is strictly greater (`lt x y`) and before everything else — in
particular before equal keys, which is what makes the sort below stable. -/
def insertByDesc (lt : α → α → Bool) (x : α) : List α → List α
  | [] => [x]
  | y :: ys => if lt x y then y :: insertByDesc lt x ys else x :: y :: ys

/-- A stable sort placing greater keys first (`lt` is the strict "comes
later" test).  Python's `list.sort` / `sorted` are stable sorts; a stable
sort is determined by its key order, so this computes the same function.
`foldr` inserts earlier elements into the sorted tail, and `insertByDesc`
puts them before equal keys, preserving original order on ties. -/
def pySortDesc (lt : α → α → Bool) (l : List α) : List α :=
  l.foldr (insertByDesc lt) []

/-- Python's `needle in hay` substring test, executable. -/
def strContainsB (hay needle : String) : Bool :=
  (List.range (hay.data.length + 1)).any
    (fun i => needle.data.isPrefixOf (hay.data.drop i))

/-- Propositional substring containment, used in claim statements. -/
def StrContains (hay needle : String) : Prop :=
  ∃ a b : String, hay = a ++ needle ++ b

/-- Python `l[-n:]`: the (at most) `n` most recent elements. -/
def lastN (n : Nat) (l : List α) : List α := l.drop (l.length - n)

/-- Python `sep.join(l)`, by structural recursion. -/
def joinSep (sep : String) : List String → String
  | [] => ""
  | [a] => a
  | a :: b :: rest => a ++ sep ++ joinSep sep (b :: rest)

/-- The `rootCause` value when it is a structure (a Python dict):
`description` and the nested `analysis` dict.  `analysis : none` models the
`analysis` key being absent; `analysis : some logs?` models it present with
`logs?` modelling its optional `logs` entry. -/
structure RootCauseStruct where
  description : Option String
  analysis : Option (Option String)
deriving Repr, DecidableEq

/-- The `rootCause` value is heterogeneously typed in the stored records: either a
structured dict or a bare string (spec §3). -/
inductive RootCauseVal where
  | struct (rc : RootCauseStruct)
  | bare (s : String)
deriving Repr, DecidableEq

/-- One normalized defect/incident record.  `bug_id` is total: both loaders
(`jira_data_loader.py` `create_basic_rca`, `llm.py` `_load_defect_data`) set it
unconditionally.  Every other field models a dictionary key that may be
absent. `summary` is the `'Defect Summary'` key, `errorLog` the
`'Error log'` key. -/
structure Defect where
  bug_id : String
  summary : Option String
  owner : Option String
  solution : Option String
  rootCause : Option RootCauseVal
  status : Option String
  url : Option String
  errorLog : Option String
deriving Repr, DecidableEq

/-- One conversation turn (`llm.py` line 349).  The `timestamp` field
(`datetime.now()`) is wall-clock metadata never read by any logic and is
omitted from the model. -/
structure Turn where
  user : String
  assistant : String
deriving Repr, DecidableEq

/-- The answer object: `message` plus `content_type`. -/
structure Response where
  message : String
  content_type : String
deriving Repr, DecidableEq

/-! ## DataBase and FAISS (`llm.py` lines 40-98) -/

/-- Python 3 `round` to an integer: round half to even. -/
def pyRoundHalfEven (q : ℚ) : ℤ :=
  let f := ⌊q⌋
  let r := q - f
  if r < 1/2 then f
  else if 1/2 < r then f + 1
  else if f % 2 = 0 then f else f + 1

/-- Python `round(q, 2)`: round to two decimal places, half to even. -/
def pyRound2 (q : ℚ) : ℚ := (pyRoundHalfEven (q * 100) : ℚ) / 100

/-- Model of `DataBase.get_defects_by_indices_with_scores`: for each `(idx, score)`
pair, a copy of `defect_data[idx]` together with the transient
`relevance_score = round(score * 100, 2)`.  List indexing out of range models
Python's `IndexError`. -/
def get_defects_by_indices_with_scores (defect_data : List Defect)
    (indices_scores : List (ℕ × ℚ)) : Except String (List (Defect × ℚ)) :=
  indices_scores.mapM (fun p =>
    match defect_data[p.1]? with
    | some d => Except.ok (d, pyRound2 (p.2 * 100))
    | none => Except.error "IndexError: list index out of range")

/-- Model of `FAISS.semantic_search`, with the dot products against the query embedding
supplied as the list `similarities` (the embedding provider is external).
Keeps the indices whose score is strictly above `threshold`, sorts by score
descending (`indices_scores.sort(key=lambda x: x[1], reverse=True)` is a
stable descending sort by score, which is what `pySortDesc` computes), and
truncates to `top_k`. -/
def semantic_search (similarities : List ℚ) (top_k : ℕ) (threshold : ℚ) :
    List (ℕ × ℚ) :=
  let indices_scores := similarities.enum.filter (fun p => decide (threshold < p.2))
  let sorted := pySortDesc (fun a b => decide (a.2 < b.2)) indices_scores
  sorted.take top_k

/-! ## LLM constants (`llm.py` lines 100-134) -/

def jira_base_url : String := "https://nish09.atlassian.net/browse/"

/-- Model of `urllib.parse.urljoin` for the shapes occurring here: the base URL ends in
`/` and the second argument is a plain relative segment, so the join is
concatenation. -/
def urljoin (base rel : String) : String := base ++ rel

def system_prompt : String :=
  "You are Bugbuster, a friendly AI assistant that helps with defect analysis.\n\nKeep your responses simple and clear, like this:\n1. Start with a direct answer to the question\n2. Add relevant details or examples if needed\n3. End with \"Summary: \" followed by 1-2 sentences highlighting key points\n\nFormat:\n- Use bullet points for lists\n- Keep sentences short\n- Highlight important terms in **bold**\n- Link Jira tickets like [SCRUM-7](https://nish09.atlassian.net/browse/SCRUM-7)\n\nExample response:\nThe login issue in [SCRUM-15] is caused by **event handling problems** in the mobile UI.\n\n- Issue affects mobile users only\n- Root cause: Touch events not being captured\n- Solution: Update event listeners\n\nSummary: Mobile login needs UI event handling fixes. Team should focus on touch event listeners."

/-- The `self.query_types` table, in dict insertion order. -/
def query_types : List (String × List String) :=
  [("description", ["what is", "describe", "explain", "tell me about"]),
   ("error", ["error", "log", "exception", "payload"]),
   ("analysis", ["analyze", "check", "investigate", "debug"]),
   ("impact", ["impact", "affect", "consequence", "result"]),
   ("status", ["status", "state", "progress", "current"]),
   ("validation", ["test", "verify", "validate", "qa"]),
   ("service", ["service", "kafka", "mongodb", "api", "downstream"])]

def service_names : List String :=
  ["kafka", "mongodb", "notification", "login", "policy"]

def solution_keywords : List String := ["solution", "fix", "resolve"]

def root_cause_keywords : List String := ["root", "cause", "why"]

/-! ## LLM helpers (`llm.py` lines 136-148) -/

/-- Model of `LLM._format_conversation_history`: empty string on an empty window,
otherwise the last three turns rendered as alternating lines. -/
def format_conversation_history (ctx : List Turn) : String :=
  if ctx.isEmpty then ""
  else
    let history := joinSep "\n"
      ((lastN 3 ctx).map (fun t => "User: " ++ t.user ++ "\nAssistant: " ++ t.assistant))
    "\nRecent conversation:\n" ++ history

/-- Model of `LLM._get_query_type`: first keyword family (in dict order) with a member
occurring as a substring of the lowercased query, else `general`. -/
def get_query_type (query : String) : String :=
  let ql := pyToLower query
  match query_types.find? (fun qt => qt.2.any (fun kw => strContainsB ql kw)) with
  | some qt => qt.1
  | none => "general"

/-! ## Record field access in Python dict semantics -/

/-- Access `defect['Defect Summary']`: raises `KeyError` when absent. -/
def getSummary (d : Defect) : Except String String :=
  match d.summary with
  | some s => Except.ok s
  | none => Except.error "KeyError: Defect Summary"

/-- Lines 171-172 / 213-214:
`root_cause = defect.get('rootCause', {})` followed by
`root_cause.get('description') if isinstance(root_cause, dict) else root_cause`.
A bare string is passed through as the description. -/
def rcDescOfGet (rc : Option RootCauseVal) : Option String :=
  match rc with
  | none => none
  | some (.struct r) => r.description
  | some (.bare s) => some s

/-- Line 200 / 266: `defect.get('rootCause', {}).get('description', 'N/A')`.
Here there is no `isinstance` guard: a bare string raises `AttributeError`. -/
def rcDescOrNA (rc : Option RootCauseVal) : Except String String :=
  match rc with
  | none => Except.ok "N/A"
  | some (.struct r) => Except.ok (r.description.getD "N/A")
  | some (.bare _) => Except.error "AttributeError: str object has no attribute get"

/-- Python truthiness fallback `x if x else d` for an optional string:
`None` and the empty string both fall back to `d`. -/
def pyOr (x : Option String) (d : String) : String :=
  match x with
  | some s => if s = "" then d else s
  | none => d

/-! ## The three templated identifier cards (`llm.py` lines 166-225) -/

/-- The generic `DirectLookup` card (lines 174-184). -/
def direct_card (defect_id : String) (d : Defect) : Except String String := do
  let summary ← getSummary d
  let root_cause_desc := rcDescOfGet d.rootCause
  Except.ok ("Defect Details for [" ++ defect_id ++ "](" ++
    urljoin jira_base_url defect_id ++ "):\n\nSummary: " ++ summary ++ "\n\n" ++
    "Root Cause: " ++ pyOr root_cause_desc "No root cause specified" ++ "\n\n" ++
    "Solution: " ++ d.solution.getD "No solution specified" ++ "\n\n" ++
    "Owner: " ++ d.owner.getD "Unassigned" ++ "\n\n" ++
    "Status: " ++ d.status.getD "Unknown")

/-- The `SolutionLookup` card (lines 194-201).  The f-string evaluates
`defect['Defect Summary']` before the `rootCause` access, so a missing summary
raises before a bare-string root cause does. -/
def solution_card (defect_id : String) (d : Defect) : Except String String := do
  let summary ← getSummary d
  let rcdesc ← rcDescOrNA d.rootCause
  Except.ok ("Solution Details for [" ++ defect_id ++ "](" ++
    urljoin jira_base_url defect_id ++ "):\n\nDefect Summary: " ++ summary ++ "\n\n" ++
    "Solution: " ++ d.solution.getD "No solution specified" ++ "\n\n" ++
    "Root Cause: " ++ rcdesc ++ "\n" ++
    "Owner: " ++ d.owner.getD "Unassigned")

/-- The `RootCauseLookup` card (lines 212-225). -/
def root_cause_card (defect_id : String) (d : Defect) : Except String String := do
  let summary ← getSummary d
  let root_cause_desc := rcDescOfGet d.rootCause
  let solution := d.solution.getD "No solution provided"
  Except.ok ("Root Cause Analysis for [" ++ defect_id ++ "](" ++
    urljoin jira_base_url defect_id ++ "):\n\nDefect Summary: " ++ summary ++ "\n\n" ++
    "Root Cause: " ++ pyOr root_cause_desc "No root cause specified" ++ "\n\n" ++
    "Solution: " ++ solution ++ "\n\n" ++
    "Owner: " ++ d.owner.getD "Unassigned")

/-! ## Service analysis and error logs (`llm.py` lines 360-410) -/

/-- One line pair of `_format_service_analysis`'s inner loop (lines 382-385):
the bullet line, plus the root-cause line when
`issue.get('rootCause', {}).get('description')` is truthy.  A bare-string
`rootCause` raises `AttributeError` at that `.get`. -/
def serviceIssueLine (d : Defect) : Except String String := do
  let summary ← getSummary d
  let base := "- [" ++ d.bug_id ++ "](" ++ urljoin jira_base_url d.bug_id ++ "): " ++
    summary ++ "\n"
  match d.rootCause with
  | some (.bare _) => Except.error "AttributeError: str object has no attribute get"
  | some (.struct r) =>
    match r.description with
    | some desc =>
      if desc = "" then Except.ok base
      else Except.ok (base ++ "  Root Cause: " ++ desc ++ "\n")
    | none => Except.ok base
  | none => Except.ok base

/-- Model of `LLM._format_service_analysis`: group records by service keyword occurring
in the lowercased summary; `None` (here `none`) when no group is non-empty.
The grouping loop reads `defect['Defect Summary']` for every record, so a
missing summary raises before any rendering. -/
def format_service_analysis (defects : List Defect) :
    Except String (Option String) := do
  let summaries ← defects.mapM getSummary
  let pairs := defects.zip summaries
  let groups := service_names.map (fun s =>
    (s, (pairs.filter (fun p => strContainsB (pyToLower p.2) s)).map Prod.fst))
  let active := groups.filter (fun g => ¬ g.2.isEmpty)
  if active.isEmpty then Except.ok none
  else do
    let body ← active.mapM (fun g => do
      let lines ← g.2.mapM serviceIssueLine
      Except.ok ("\n" ++ pyToUpper g.1 ++ " Service Issues:\n" ++ String.join lines))
    Except.ok (some ("Service-related Issues Analysis:\n\n" ++ String.join body))

/-- The membership test of `_format_error_logs` line 392:
`'Error log' in defect or 'rootCause' in defect and 'analysis' in defect['rootCause']`.
When `rootCause` is a bare string, `'analysis' in …` is a substring test. -/
def error_log_condition (d : Defect) : Bool :=
  d.errorLog.isSome ||
    (match d.rootCause with
     | some (.struct r) => r.analysis.isSome
     | some (.bare s) => strContainsB s "analysis"
     | none => false)

/-- Line 393: `defect.get('Error log', defect['rootCause'].get('analysis', {}).get('logs', ''))`.
Python evaluates the fallback argument eagerly, so a record passing the
condition via `'Error log'` but lacking `rootCause` raises `KeyError`, and a
bare-string `rootCause` raises `AttributeError`. -/
def error_log_value (d : Defect) : Except String String := do
  let fallback ←
    match d.rootCause with
    | none => Except.error "KeyError: rootCause"
    | some (.bare _) => Except.error "AttributeError: str object has no attribute get"
    | some (.struct r) =>
      Except.ok (match r.analysis with
        | none => ""
        | some logs => logs.getD "")
  Except.ok (d.errorLog.getD fallback)

/-- One iteration of `_format_error_logs`'s collection loop (lines 391-399). -/
def collect_error (d : Defect) : Except String (Option (String × String × String)) := do
  if error_log_condition d then
    let lg ← error_log_value d
    if lg = "" then Except.ok none
    else do
      let summary ← getSummary d
      Except.ok (some (d.bug_id, summary, lg))
  else Except.ok none

/-- Model of `LLM._format_error_logs`: `none` when no record contributes a log. -/
def format_error_logs (defects : List Defect) : Except String (Option String) := do
  let entries ← defects.mapM collect_error
  let errors := entries.filterMap id
  if errors.isEmpty then Except.ok none
  else
    Except.ok (some (errors.foldl (fun acc e =>
      acc ++ "[" ++ e.1 ++ "](" ++ urljoin jira_base_url e.1 ++ "):\n" ++
      "Summary: " ++ e.2.1 ++ "\n" ++
      "Log: ```\n" ++ e.2.2 ++ "\n```\n\n") "Error Log Analysis:\n\n"))

/-! ## Table, listing and free-form prompt (`llm.py` lines 227-285) -/

def table_header : String :=
  "\n        <div class=\"defect-table\">\n            <table border=\"1\">\n                <thead>\n                    <tr>\n                        <th>Defect ID</th>\n                        <th>Summary</th>\n                        <th>Owner</th>\n                    </tr>\n                </thead>\n                <tbody>\n        "

def table_footer : String :=
  "\n                </tbody>\n            </table>\n        </div>\n        "

/-- One `<tr>` block of the defect table (lines 240-249). -/
def table_row (d : Defect) : Except String String := do
  let summary ← getSummary d
  let jira_url := d.url.getD (urljoin jira_base_url d.bug_id)
  Except.ok ("\n                <tr>\n                    <td><a href=\"" ++ jira_url ++
    "\" target=\"_blank\">" ++ d.bug_id ++ "</a></td>\n                    <td>" ++
    summary ++ "</td>\n                    <td>" ++ d.owner.getD "Unassigned" ++
    "</td>\n                </tr>\n            ")

/-- The listing answer (lines 257-261). -/
def listing_text (table_html : String) : String :=
  "Here are all the currently active defects in the system:\n            " ++
  table_html ++
  "\n            \n            Note: Only these defects are currently in our database. If you're looking for other defect IDs, they may have been resolved or not yet added."

/-- One block of `defect_context` (lines 263-270); the nested
`d.get('rootCause', {}).get('description', 'N/A')` raises on a bare string. -/
def defect_context_item (d : Defect) : Except String String := do
  let summary ← getSummary d
  let rcdesc ← rcDescOrNA d.rootCause
  Except.ok ("Defect: " ++ summary ++ "\nID: [" ++ d.bug_id ++ "](" ++
    urljoin jira_base_url d.bug_id ++ ")\nRoot Cause: " ++ rcdesc ++
    "\nSolution: " ++ d.solution.getD "N/A" ++
    "\nOwner: " ++ d.owner.getD "N/A")

/-- The free-form prompt f-string (lines 274-283), with the rendered
conversation-history block as an argument. -/
def freeform_prompt (historyBlock query defect_context : String) : String :=
  system_prompt ++ "\n\n    Available defect information:\n    " ++ defect_context ++
  "\n\n    " ++ historyBlock ++ "\n\n    User Query: " ++ query ++
  "\n\n    Provide a clear, focused answer based on the available information. If the query is about specific aspects (owner, root cause, solution), only include that information."

/-! ## `LLM._create_prompt` (lines 150-285) -/

/-- Model of `next((word.upper() for word in query.split() if word.upper().startswith('SCRUM-')), ...)`
and the list comprehensions at lines 188 and 206: the uppercased
whitespace-separated tokens starting with `SCRUM-`. -/
def scrumIds (query : String) : List String :=
  ((pySplit query).map pyToUpper).filter (fun w => pyStartsWith "SCRUM-" w)

/-- Line 166: whether any token, uppercased, starts with `SCRUM-` or `INC`. -/
def hasIdToken (query : String) : Bool :=
  (pySplit query).any (fun w =>
    pyStartsWith "SCRUM-" (pyToUpper w) || pyStartsWith "INC" (pyToUpper w))

/-- Model of `next((d for d in relevant_defects if d['bug_id'] == defect_id), None)`.
When `defect_id` is Python `None` (no `SCRUM-` token), no string `bug_id`
compares equal to it, so the scan finds nothing. -/
def findDefect (defect_id : Option String) (ds : List Defect) : Option Defect :=
  match defect_id with
  | some id => ds.find? (fun d => d.bug_id == id)
  | none => none

/-- Lines 227-285: the table is built for every query that reaches this point,
then either the listing answer or the free-form prompt is produced. -/
def table_and_rest (historyBlock query : String) (relevant_defects : List Defect) :
    Except String String := do
  let rows ← relevant_defects.mapM table_row
  let table_html := table_header ++ String.join rows ++ table_footer
  if strContainsB (pyToLower query) "list" || strContainsB (pyToLower query) "all" then
    Except.ok (listing_text table_html)
  else do
    let items ← relevant_defects.mapM defect_context_item
    let defect_context := joinSep "\n\n" items
    Except.ok (freeform_prompt historyBlock query defect_context)

/-- Lines 187-225: the solution-keyword `if` and the root-cause-keyword
`elif`.  When an inner condition fails, control falls to the table code (the
`elif` is skipped once the solution keyword matched). -/
def create_prompt_keyword_branches (historyBlock query : String)
    (relevant_defects : List Defect) : Except String String :=
  if solution_keywords.any (fun kw => strContainsB (pyToLower query) kw) then
    match (scrumIds query).head? with
    | some defect_id =>
      (match findDefect (some defect_id) relevant_defects with
       | some d => solution_card defect_id d
       | none => table_and_rest historyBlock query relevant_defects)
    | none => table_and_rest historyBlock query relevant_defects
  else if root_cause_keywords.any (fun kw => strContainsB (pyToLower query) kw) then
    match (scrumIds query).head? with
    | some defect_id =>
      (match findDefect (some defect_id) relevant_defects with
       | some d => root_cause_card defect_id d
       | none => table_and_rest historyBlock query relevant_defects)
    | none => table_and_rest historyBlock query relevant_defects
  else table_and_rest historyBlock query relevant_defects

/-- The body of `LLM._create_prompt`, with the conversation history already
rendered to a string (`_format_conversation_history` is pure, so rendering it
up front is value-preserving).  Branch order is exactly the source's:
service summary, error logs, the generic identifier card, the
solution-keyword card, the root-cause-keyword card (an `elif`), then the
table/listing/free-form tail. -/
def create_prompt_core (historyBlock query : String) (relevant_defects : List Defect) :
    Except String String := do
  let query_type := get_query_type query
  let serviceResult ←
    if query_type = "service" then format_service_analysis relevant_defects
    else Except.ok none
  match serviceResult with
  | some s => Except.ok s
  | none => do
    let errorResult ←
      if query_type = "error" then format_error_logs relevant_defects
      else Except.ok none
    match errorResult with
    | some s => Except.ok s
    | none =>
      if hasIdToken query then
        let defect_id := (scrumIds query).head?
        match findDefect defect_id relevant_defects, defect_id with
        | some d, some id => direct_card id d
        | _, _ => create_prompt_keyword_branches historyBlock query relevant_defects
      else create_prompt_keyword_branches historyBlock query relevant_defects

/-- Model of `LLM._create_prompt`. -/
def create_prompt (ctx : List Turn) (query : String) (relevant_defects : List Defect) :
    Except String String :=
  create_prompt_core (format_conversation_history ctx) query relevant_defects

/-! ## `LLM._format_response` and `LLM.get_response` (lines 287-358) -/

def summary_keys : List String :=
  ["root cause:", "solution:", "status:", "owner:", "impact:"]

/-- Model of `LLM._format_response`: synthesize a `Summary:` section when absent,
insert the separator, render through the external markdown transform `md` and
wrap.  Always `content_type = "html"`. -/
def format_response (md : String → String) (response : String) : Response :=
  let response1 :=
    if strContainsB response "Summary:" then response
    else
      let lines := pyLines response
      let first_points :=
        match lines.head? with
        | some l => if pyTrim l = "" then [] else [pyTrim l]
        | none => []
      let key_points := first_points ++ lines.filterMap (fun line =>
        let ll := pyTrim (pyToLower line)
        if summary_keys.any (fun k => strContainsB ll k) then some ll else none)
      let summary :=
        if key_points.isEmpty then "Key points from the analysis"
        else joinSep " " (key_points.take 3)
      response ++ "\n\nSummary: " ++ summary
  let response2 := pyReplace response1 "Summary:" "\n---\n**Summary:**"
  { message := "\n        <div class=\"response-card\">\n            <div class=\"response-content\">\n                " ++
      md response2 ++ "\n            </div>\n        </div>\n        "
    content_type := "html" }

/-- Lines 349-356: append the completed turn, then evict the oldest entry
(`pop(0)`) once the window exceeds five turns. -/
def push_turn (ctx : List Turn) (t : Turn) : List Turn :=
  let c := ctx ++ [t]
  if 5 < c.length then c.tail else c

/-- What one `LLM.get_response` call produced: the prompt it sent to the
generation provider, the context window after the call, and the answer. -/
structure GenResult where
  prompt : String
  context_window : List Turn
  response : Response
deriving Repr, DecidableEq

/-- Model of `LLM.get_response`: build the prompt, send it to the generation provider
`complete`, record the turn, format the completion.  The debug `print` block
(lines 332-340) only prints and is omitted. -/
def get_response (complete md : String → String) (ctx : List Turn)
    (query : String) (relevant_defects : List Defect) : Except String GenResult := do
  let prompt ← create_prompt ctx query relevant_defects
  let answer := complete prompt
  let ctx' := push_turn ctx { user := query, assistant := answer }
  Except.ok { prompt := prompt, context_window := ctx',
              response := format_response md answer }

/-! ## The `/defects/response` endpoint (`app.py` lines 78-145) -/

def keyword_special : List String :=
  ["root", "cause", "why", "solution", "fix", "resolve"]

def keyword_listing : List String := ["owner", "who", "list", "all defect"]

/-- Lines 86-89: the set of uppercased tokens starting with `SCRUM-` or `INC`.
Python set iteration order is unspecified; the model fixes first-occurrence
order via `dedup` (the claims about the message are order-independent). -/
def mentionedIdTokens (query : String) : List String :=
  (((pySplit query).filter (fun w =>
      pyStartsWith "SCRUM-" (pyToUpper w) || pyStartsWith "INC" (pyToUpper w))).map
    pyToUpper).dedup

/-- The `InvalidIdentifier` message (lines 94-104). -/
def invalid_ids_message (invalid valid_sorted : List String) : String :=
  "**Invalid Defect IDs**\n\nThe following defect IDs are not in the current database:\n- " ++
  joinSep ", " invalid ++
  "\n\n**Currently Active Defects:**\n- " ++
  joinSep ", " valid_sorted ++
  "\n\n---\n**Summary:**\nPlease check the list of active defects above and try your query with a valid defect ID."

/-- Lines 112-127: choose `relevant_defects`.  Returns the candidate list and
whether `semantic_search` ran.  `sims query` stands for the dot products of
the pre-built record embeddings against the embedding of `query`. -/
def select_candidates (sims : String → List ℚ) (valid_defect_ids : List String)
    (defect_data : List Defect) (query : String) :
    Except String (List Defect × Bool) :=
  if keyword_special.any (fun kw => strContainsB query kw) then
    match (scrumIds query).head? with
    | some id =>
      if valid_defect_ids.contains id then
        Except.ok (defect_data.filter (fun d => d.bug_id == id), false)
      else Except.ok (defect_data, false)
    | none => Except.ok (defect_data, false)
  else if ¬ (keyword_listing.any (fun kw => strContainsB query kw)) then do
    let scored := semantic_search (sims query) 10 (3/10)
    let withScores ← get_defects_by_indices_with_scores defect_data scored
    let sorted := pySortDesc (fun a b => decide (a.2 < b.2)) withScores
    Except.ok (sorted.map Prod.fst, true)
  else Except.ok (defect_data, false)

/-- The observable outcome of one request: the JSON answer, the prompt passed
to the generation provider (`none` when no call was made), whether the
semantic search ran, and which records reached the composer. -/
structure HandlerOut where
  response : Response
  promptSent : Option String
  searched : Bool
  candidates : List Defect
deriving Repr, DecidableEq

/-- The handler `defects_response` with the composer's context window made explicit.  The
actual endpoint always runs it on the empty window (`llm = LLM()` constructs a
fresh object per request); see `defects_response`. -/
def defects_response_session (llm_ctx : List Turn) (complete md sanitize : String → String)
    (sims : String → List ℚ) (valid_defect_ids : List String)
    (defect_data : List Defect) (prompt0 : String) : Except String HandlerOut := do
  let query := pyToLower prompt0
  let mentioned_ids := mentionedIdTokens query
  let invalid_ids := mentioned_ids.filter (fun id => ¬ valid_defect_ids.contains id)
  if ¬ invalid_ids.isEmpty then
    Except.ok
      { response :=
          { message := invalid_ids_message invalid_ids
              (pySortDesc (fun a b => strLtB b.data a.data) valid_defect_ids.dedup)
            content_type := "markdown" }
        promptSent := none, searched := false, candidates := [] }
  else do
    let sel ← select_candidates sims valid_defect_ids defect_data query
    let gen ← get_response complete md llm_ctx query sel.1
    let resp := gen.response
    let resp :=
      if resp.content_type = "html" then { resp with message := sanitize resp.message }
      else resp
    Except.ok { response := resp, promptSent := some gen.prompt,
                searched := sel.2, candidates := sel.1 }

/-- The `/defects/response` endpoint (lines 78-145): a fresh `LLM()` — hence an
empty context window — is constructed for every request. -/
def defects_response (complete md sanitize : String → String)
    (sims : String → List ℚ) (valid_defect_ids : List String)
    (defect_data : List Defect) (prompt0 : String) : Except String HandlerOut :=
  defects_response_session [] complete md sanitize sims valid_defect_ids
    defect_data prompt0


-- Decidable equality for `Except`, used to state concrete counterexamples.
deriving instance DecidableEq for Except

/-! ## Concrete records used by witnesses and counterexamples -/

/-- The spec §8 scenario record: a fully populated tracker bug. -/
def rec15 : Defect :=
  { bug_id := "SCRUM-15", summary := some "Login button unresponsive on mobile"
    owner := some "Priya", solution := some "Update listeners"
    rootCause := some (.struct { description := some "Touch events not captured"
                                 analysis := some (some "") })
    status := some "Done", url := none, errorLog := none }

/-- A second record, mostly bare. -/
def rec2 : Defect :=
  { bug_id := "SCRUM-2", summary := some "Kafka consumer lag"
    owner := none, solution := none, rootCause := none
    status := none, url := none, errorLog := none }

/-- A record whose `rootCause` is a bare string. -/
def recBare : Defect :=
  { bug_id := "SCRUM-7", summary := some "Consumer rebalance storm"
    owner := none, solution := none, rootCause := some (.bare "rebalance storm")
    status := none, url := none, errorLog := none }

/-- A record missing its `'Defect Summary'` key. -/
def recNoSum : Defect :=
  { bug_id := "SCRUM-3", summary := none, owner := none, solution := none
    rootCause := none, status := none, url := none, errorLog := none }

/-! ## Substring lemmas -/

theorem strContains_append_left (c : String) {s x : String}
    (h : StrContains s x) : StrContains (c ++ s) x := by
  obtain ⟨a, b, rfl⟩ := h
  exact ⟨c ++ a, b, by simp [String.append_assoc]⟩

theorem strContains_append_right (c : String) {s x : String}
    (h : StrContains s x) : StrContains (s ++ c) x := by
  obtain ⟨a, b, rfl⟩ := h
  exact ⟨a, b ++ c, by simp [String.append_assoc]⟩

theorem strContains_refl (x : String) : StrContains x x :=
  ⟨"", "", by simp [String.empty_append, String.append_empty]⟩

theorem strContains_of_data {hay needle : String}
    (h : ∃ a b : List Char, hay.data = a ++ needle.data ++ b) :
    StrContains hay needle := by
  obtain ⟨a, b, hab⟩ := h
  refine ⟨String.mk a, String.mk b, ?_⟩
  apply String.ext
  simpa using hab

theorem strContains_joinSep (sep : String) {x : String} :
    ∀ {l : List String}, x ∈ l → StrContains (joinSep sep l) x := by
  intro l
  induction l with
  | nil => intro h; cases h
  | cons a as ih =>
    intro h
    rcases List.mem_cons.mp h with rfl | hmem
    · cases as with
      | nil => exact strContains_refl x
      | cons b rest =>
        exact strContains_append_right _ (strContains_append_right _ (strContains_refl x))
    · cases as with
      | nil => cases hmem
      | cons b rest =>
        have := ih hmem
        exact strContains_append_left (a ++ sep) this

/-! ## Conversation-history lemmas -/

theorem lastN_length_le (n : Nat) (l : List α) : (lastN n l).length ≤ n := by
  simp [lastN]
  omega

theorem lastN_of_length_le {n : Nat} {l : List α} (h : l.length ≤ n) :
    lastN n l = l := by
  unfold lastN
  rw [Nat.sub_eq_zero_of_le h, List.drop_zero]

theorem lastN_isEmpty_iff (n : Nat) (l : List α) (hn : 0 < n) :
    (lastN n l).isEmpty = l.isEmpty := by
  cases l with
  | nil => simp [lastN]
  | cons a as =>
    simp [lastN, List.isEmpty_iff, List.drop_eq_nil_iff]
    omega

theorem push_turn_length_le {ctx : List Turn} (t : Turn) (h : ctx.length ≤ 5) :
    (push_turn ctx t).length ≤ 5 := by
  unfold push_turn
  simp only []
  split
  · simpa [List.length_tail, List.length_append] using h
  · next hc =>
    simp only [not_lt, List.length_append, List.length_cons, List.length_nil] at hc
    simpa [List.length_append] using hc

/-- C9, part of the statement: the stored history after any sequence of
completed exchanges, starting from the empty window. -/
theorem foldl_push_turn_length_le (h0 : (start : List Turn).length ≤ 5) :
    ∀ (exchanges : List Turn), (exchanges.foldl push_turn start).length ≤ 5 := by
  intro exchanges
  induction exchanges generalizing start with
  | nil => simpa using h0
  | cons e es ih => exact ih (push_turn_length_le e h0)

/-- C9: (a) starting from the empty window, the stored history never exceeds
five turns after any sequence of completed exchanges; (b) eviction is FIFO:
once the window holds five turns, completing an exchange drops the oldest
turn (the list head) and appends the new one at the back; (c) the history
block rendered into a prompt is built from at most the three most recent
stored turns (a suffix of the window of length at most three). -/
theorem conversation_history_bounds :
    (∀ exchanges : List Turn, (exchanges.foldl push_turn []).length ≤ 5) ∧
    (∀ (ctx : List Turn) (t : Turn), ctx.length = 5 →
      push_turn ctx t = ctx.tail ++ [t]) ∧
    (∀ ctx : List Turn,
      format_conversation_history ctx = format_conversation_history (lastN 3 ctx) ∧
      (lastN 3 ctx).length ≤ 3 ∧ lastN 3 ctx <:+ ctx) := by
  refine ⟨fun exchanges => foldl_push_turn_length_le (by simp) exchanges, ?_, ?_⟩
  · intro ctx t h
    unfold push_turn
    simp only []
    rw [if_pos (by simp [h])]
    cases ctx with
    | nil => simp at h
    | cons a as => simp
  · intro ctx
    refine ⟨?_, lastN_length_le 3 ctx, List.drop_suffix _ _⟩
    unfold format_conversation_history
    rw [lastN_isEmpty_iff 3 ctx (by omega),
        lastN_of_length_le (lastN_length_le 3 ctx)]

/-- C9 witness: a concrete six-exchange run; in particular, with five stored
turns the sixth exchange evicts the oldest turn. -/
theorem conversation_history_bounds_witness :
    ([⟨"q1", "a1"⟩, ⟨"q2", "a2"⟩, ⟨"q3", "a3"⟩, ⟨"q4", "a4"⟩,
      ⟨"q5", "a5"⟩] : List Turn).length = 5 ∧
    push_turn [⟨"q1", "a1"⟩, ⟨"q2", "a2"⟩, ⟨"q3", "a3"⟩, ⟨"q4", "a4"⟩, ⟨"q5", "a5"⟩]
        ⟨"q6", "a6"⟩ =
      [⟨"q2", "a2"⟩, ⟨"q3", "a3"⟩, ⟨"q4", "a4"⟩, ⟨"q5", "a5"⟩, ⟨"q6", "a6"⟩] :=
  ⟨by decide,
   conversation_history_bounds.2.1
     [⟨"q1", "a1"⟩, ⟨"q2", "a2"⟩, ⟨"q3", "a3"⟩, ⟨"q4", "a4"⟩, ⟨"q5", "a5"⟩]
     ⟨"q6", "a6"⟩ (by decide)⟩

/-- C10: the endpoint constructs a fresh composer (`llm = LLM()`) with an
empty context window for every request, the empty window renders as the empty
history block, and hence the prompt built during any request is the one built
with the empty history string — no turn recorded by one request is ever
rendered into a later request's prompt. -/
theorem per_request_history_is_empty :
    (∀ (complete md sanitize : String → String) (sims : String → List ℚ)
       (valid : List String) (db : List Defect) (q : String),
       defects_response complete md sanitize sims valid db q =
         defects_response_session [] complete md sanitize sims valid db q) ∧
    format_conversation_history [] = "" ∧
    (∀ (q : String) (ds : List Defect),
       create_prompt [] q ds = create_prompt_core "" q ds) :=
  ⟨fun _ _ _ _ _ _ _ => rfl, rfl, fun _ _ => rfl⟩

/-- C3 counterexample: the spec §8 scenario — query `"SCRUM-15 root cause"`
with `SCRUM-15` valid.  The composer builds the `RootCauseLookup`-era card
text, but `get_response` sends it to the generation provider as a *prompt*
and wraps the completion as HTML, so the endpoint's answer carries
`content_type = "html"`, not `"markdown"` as claimed. -/
theorem scenario_root_cause_content_type_is_html :
    (defects_response (fun _ => "A.") id id (fun _ => []) ["SCRUM-15"] [rec15]
        "SCRUM-15 root cause").map (fun o => o.response.content_type) =
      Except.ok "html" ∧ "html" ≠ "markdown" :=
  ⟨by rfl, by decide⟩

/-- C4 counterexample: a non-free-form exchange (the prompt is the generic
`Defect Details` identifier card) still appends one turn to the conversation
history: the window grows from zero to one turn. -/
theorem non_freeform_appends_turn :
    (get_response (fun _ => "A.") id [] "scrum-15 root cause" [rec15]).map
        (fun g => (g.context_window.length, String.mk (g.prompt.data.take 14))) =
      Except.ok (1, "Defect Details") ∧ (1 : Nat) ≠ 0 :=
  ⟨by rfl, by decide⟩

/-- C5 counterexample: for query `"scrum-15 solution"` — a valid identifier
together with a solution keyword — the composer returns the *generic*
`DirectLookup` card, not the `SolutionLookup` card: the identifier-card check
at line 166 precedes the keyword-gated checks at lines 187/204. -/
theorem solution_query_gets_generic_card :
    create_prompt [] "scrum-15 solution" [rec15] = direct_card "SCRUM-15" rec15 ∧
    direct_card "SCRUM-15" rec15 ≠ solution_card "SCRUM-15" rec15 :=
  ⟨by rfl, by decide⟩

/-- C6 counterexample: query `"why is it failing"` contains the root-cause
keyword `why` and no recognized identifier.  The endpoint performs no
similarity retrieval and hands the *entire* record collection to the
composer, instead of falling through to semantic retrieval as claimed. -/
theorem keyword_no_id_skips_search :
    (defects_response (fun _ => "A.") id id (fun _ => [1, 1])
        ["SCRUM-15", "SCRUM-2"] [rec15, rec2] "why is it failing").map
      (fun o => (o.searched, o.candidates)) = Except.ok (false, [rec15, rec2]) :=
  by rfl

/-- C7 counterexample: composing the `SolutionLookup` card on a record whose
`rootCause` is a bare string raises (`.get` on a `str`), because line 200
lacks the `isinstance` guard that lines 172 and 214 have. -/
theorem solution_card_raises_on_bare_root_cause :
    solution_card "SCRUM-7" recBare =
      Except.error "AttributeError: str object has no attribute get" :=
  by rfl

/-- C8 counterexample: a record missing its `'Defect Summary'` key crashes
composition (`KeyError` at line 176) instead of rendering a sentinel. -/
theorem missing_summary_raises :
    create_prompt [] "scrum-3" [recNoSum] =
      Except.error "KeyError: Defect Summary" :=
  by rfl

/-! ## Lemmas about the stable sort -/

theorem mem_insertByDesc {lt : α → α → Bool} {x a : α} :
    ∀ {l : List α}, a ∈ insertByDesc lt x l ↔ a = x ∨ a ∈ l := by
  intro l
  induction l with
  | nil => simp [insertByDesc]
  | cons y ys ih =>
    unfold insertByDesc
    split
    · simp only [List.mem_cons, ih]
      tauto
    · simp only [List.mem_cons]

theorem mem_pySortDesc {lt : α → α → Bool} {a : α} :
    ∀ {l : List α}, a ∈ pySortDesc lt l ↔ a ∈ l := by
  intro l
  induction l with
  | nil => simp [pySortDesc]
  | cons y ys ih =>
    show a ∈ insertByDesc lt y (pySortDesc lt ys) ↔ _
    rw [mem_insertByDesc]
    simp [ih]

theorem length_insertByDesc {lt : α → α → Bool} {x : α} :
    ∀ {l : List α}, (insertByDesc lt x l).length = l.length + 1 := by
  intro l
  induction l with
  | nil => rfl
  | cons y ys ih =>
    unfold insertByDesc
    split
    · simpa using ih
    · rfl

theorem length_pySortDesc {lt : α → α → Bool} :
    ∀ {l : List α}, (pySortDesc lt l).length = l.length := by
  intro l
  induction l with
  | nil => rfl
  | cons y ys ih =>
    show (insertByDesc lt y (pySortDesc lt ys)).length = _
    rw [length_insertByDesc, ih]
    rfl

/-- The score-descending, index-ascending ordering that `semantic_search`'s
results satisfy: strictly greater scores first, original order on ties. -/
def ScoreLex (a b : ℕ × ℚ) : Prop := b.2 < a.2 ∨ (b.2 = a.2 ∧ a.1 < b.1)

theorem insertByDesc_pairwise_lex {x : ℕ × ℚ} :
    ∀ {s : List (ℕ × ℚ)}, s.Pairwise ScoreLex → (∀ b ∈ s, x.1 < b.1) →
      (insertByDesc (fun a b => decide (a.2 < b.2)) x s).Pairwise ScoreLex := by
  intro s
  induction s with
  | nil => intro _ _; simp [insertByDesc, List.pairwise_cons]
  | cons y ys ih =>
    intro hs hx
    rw [List.pairwise_cons] at hs
    unfold insertByDesc
    split
    · next hlt =>
      rw [List.pairwise_cons]
      refine ⟨?_, ih hs.2 (fun b hb => hx b (List.mem_cons_of_mem _ hb))⟩
      intro z hz
      rcases mem_insertByDesc.mp hz with rfl | hz'
      · exact Or.inl (of_decide_eq_true hlt)
      · exact hs.1 z hz'
    · next hge =>
      have hyx : y.2 ≤ x.2 := le_of_not_lt (fun h => hge (decide_eq_true h))
      rw [List.pairwise_cons]
      constructor
      · intro z hz
        rcases List.mem_cons.mp hz with rfl | hz'
        · rcases lt_or_eq_of_le hyx with h | h
          · exact Or.inl h
          · exact Or.inr ⟨h, hx z (List.mem_cons_self _ _)⟩
        · have hzy : z.2 ≤ y.2 := by
            rcases hs.1 z hz' with h | h
            · exact le_of_lt h
            · exact le_of_eq h.1
          rcases lt_or_eq_of_le (le_trans hzy hyx) with h | h
          · exact Or.inl h
          · exact Or.inr ⟨h, hx z (List.mem_cons_of_mem _ hz')⟩
      · exact List.pairwise_cons.mpr hs

theorem pySortDesc_pairwise_lex :
    ∀ {l : List (ℕ × ℚ)}, l.Pairwise (fun a b => a.1 < b.1) →
      (pySortDesc (fun a b => decide (a.2 < b.2)) l).Pairwise ScoreLex := by
  intro l
  induction l with
  | nil => intro _; simp [pySortDesc]
  | cons a rest ih =>
    intro hl
    rw [List.pairwise_cons] at hl
    show (insertByDesc _ a (pySortDesc _ rest)).Pairwise ScoreLex
    exact insertByDesc_pairwise_lex (ih hl.2)
      (fun b hb => hl.1 b (mem_pySortDesc.mp hb))

theorem enum_pairwise_fst (l : List ℚ) :
    l.enum.Pairwise (fun a b => a.1 < b.1) := by
  rw [List.pairwise_iff_getElem]
  intro i j hi hj hij
  rw [List.getElem_enum, List.getElem_enum]
  exact hij

/-! ## C2: the similarity-search contract -/

theorem mem_semantic_search {sims : List ℚ} {k : ℕ} {th : ℚ} {p : ℕ × ℚ}
    (h : p ∈ semantic_search sims k th) :
    p ∈ sims.enum ∧ th < p.2 := by
  unfold semantic_search at h
  simp only [] at h
  have h1 : p ∈ pySortDesc (fun a b => decide (a.2 < b.2))
      (sims.enum.filter (fun p => decide (th < p.2))) :=
    (List.take_sublist _ _).subset h
  have h2 := mem_pySortDesc.mp h1
  have h3 := List.mem_filter.mp h2
  exact ⟨h3.1, of_decide_eq_true h3.2⟩

theorem mem_enum_fst_lt {l : List ℚ} {p : ℕ × ℚ} (h : p ∈ l.enum) :
    p.1 < l.length := by
  obtain ⟨i, hi, rfl⟩ := List.mem_iff_getElem.mp h
  rw [List.getElem_enum]
  simpa using List.enum_length (l := l) ▸ hi

theorem mapM_scores_ok (data : List Defect) :
    ∀ (is : List (ℕ × ℚ)), (∀ p ∈ is, p.1 < data.length) →
      ∃ l, get_defects_by_indices_with_scores data is = Except.ok l ∧
        List.Forall₂ (fun (p : ℕ × ℚ) (dq : Defect × ℚ) =>
          data[p.1]? = some dq.1 ∧ dq.2 = pyRound2 (p.2 * 100)) is l := by
  intro is
  induction is with
  | nil =>
    intro _
    exact ⟨[], rfl, List.Forall₂.nil⟩
  | cons p ps ih =>
    intro hb
    have hp : p.1 < data.length := hb p (List.mem_cons_self _ _)
    obtain ⟨l, hl, hf⟩ := ih (fun q hq => hb q (List.mem_cons_of_mem _ hq))
    refine ⟨(data[p.1], pyRound2 (p.2 * 100)) :: l, ?_, ?_⟩
    · have hget : data[p.1]? = some data[p.1] := List.getElem?_eq_getElem hp
      unfold get_defects_by_indices_with_scores at hl ⊢
      rw [List.mapM_cons, hget]
      simp only [bind, Except.bind]
      rw [hl]
      rfl
    · exact List.Forall₂.cons ⟨List.getElem?_eq_getElem hp, rfl⟩ hf

/-- C2: for a fixed embedding matrix (`sims` lists the dot product of each
record's embedding against the query embedding, in record order), the
similarity search returns only entries with score strictly above `3/10`,
at most ten of them, sorted strictly descending by score with exact ties in
original record order; and attaching scores yields, per entry, the record at
that index (a copy) with `relevance_score = round(score * 100, 2)`. -/
theorem similarity_search_spec (data : List Defect) (sims : List ℚ)
    (hlen : sims.length = data.length) :
    (∀ p ∈ semantic_search sims 10 (3/10), (3 : ℚ)/10 < p.2) ∧
    (semantic_search sims 10 (3/10)).length ≤ 10 ∧
    (semantic_search sims 10 (3/10)).Pairwise ScoreLex ∧
    ∃ l, get_defects_by_indices_with_scores data (semantic_search sims 10 (3/10)) =
        Except.ok l ∧
      List.Forall₂ (fun (p : ℕ × ℚ) (dq : Defect × ℚ) =>
          data[p.1]? = some dq.1 ∧ dq.2 = pyRound2 (p.2 * 100))
        (semantic_search sims 10 (3/10)) l := by
  refine ⟨fun p hp => (mem_semantic_search hp).2, ?_, ?_, ?_⟩
  · exact List.length_take_le _ _
  · have hfl : (sims.enum.filter (fun p => decide ((3:ℚ)/10 < p.2))).Pairwise
        (fun a b => a.1 < b.1) :=
      List.Pairwise.sublist (List.filter_sublist _) (enum_pairwise_fst sims)
    exact List.Pairwise.sublist (List.take_sublist _ _) (pySortDesc_pairwise_lex hfl)
  · exact mapM_scores_ok data _ (fun p hp =>
      hlen ▸ mem_enum_fst_lt (mem_semantic_search hp).1)

/-- C2 witness: a concrete five-record collection; scores `1/2, 9/10, 9/10,
1/5, 3/10` — the threshold itself and below are dropped, ties keep record
order. -/
theorem similarity_search_spec_witness :
    ([(1:ℚ)/2, 9/10, 9/10, 1/5, 3/10].length =
      [rec15, rec2, recBare, recNoSum, rec15].length) ∧
    ((∀ p ∈ semantic_search [(1:ℚ)/2, 9/10, 9/10, 1/5, 3/10] 10 (3/10),
        (3 : ℚ)/10 < p.2) ∧
     (semantic_search [(1:ℚ)/2, 9/10, 9/10, 1/5, 3/10] 10 (3/10)).length ≤ 10 ∧
     (semantic_search [(1:ℚ)/2, 9/10, 9/10, 1/5, 3/10] 10 (3/10)).Pairwise ScoreLex ∧
     ∃ l, get_defects_by_indices_with_scores [rec15, rec2, recBare, recNoSum, rec15]
          (semantic_search [(1:ℚ)/2, 9/10, 9/10, 1/5, 3/10] 10 (3/10)) =
        Except.ok l ∧
      List.Forall₂ (fun (p : ℕ × ℚ) (dq : Defect × ℚ) =>
          [rec15, rec2, recBare, recNoSum, rec15][p.1]? = some dq.1 ∧
          dq.2 = pyRound2 (p.2 * 100))
        (semantic_search [(1:ℚ)/2, 9/10, 9/10, 1/5, 3/10] 10 (3/10)) l) :=
  ⟨by rfl, similarity_search_spec [rec15, rec2, recBare, recNoSum, rec15]
    [(1:ℚ)/2, 9/10, 9/10, 1/5, 3/10] (by rfl)⟩

/-! ## C3 and C4 amended: what `get_response` actually does -/

theorem format_response_content_type (md : String → String) (a : String) :
    (format_response md a).content_type = "html" := rfl

/-- C3 amended, part of the statement: every completed composer exchange —
whatever the prompt shape, templated card or free-form — wraps the
generation provider's completion as HTML, so its answer carries
`content_type = "html"`; at the endpoint the only `"markdown"` answer is the
`InvalidIdentifier` short-circuit, which makes no generation call. -/
theorem responses_html_except_invalid :
    (∀ (complete md : String → String) (ctx : List Turn) (q : String)
       (ds : List Defect) (g : GenResult),
       get_response complete md ctx q ds = Except.ok g →
       g.response.content_type = "html") ∧
    (∀ (complete md sanitize : String → String) (sims : String → List ℚ)
       (valid : List String) (db : List Defect) (q : String) (out : HandlerOut),
       defects_response complete md sanitize sims valid db q = Except.ok out →
       (out.response.content_type = "html" ∧ out.promptSent ≠ none) ∨
         (out.response.content_type = "markdown" ∧ out.promptSent = none)) := by
  have h1 : ∀ (complete md : String → String) (ctx : List Turn) (q : String)
      (ds : List Defect) (g : GenResult),
      get_response complete md ctx q ds = Except.ok g →
      g.response.content_type = "html" := by
    intro c md ctx q ds g h
    cases hcp : create_prompt ctx q ds with
    | error e => simp [get_response, hcp, bind, Except.bind] at h
    | ok p =>
      simp [get_response, hcp, bind, Except.bind, pure, Except.pure] at h
      rw [← h]
      rfl
  refine ⟨h1, ?_⟩
  intro c md sz sims valid db q out h
  unfold defects_response defects_response_session at h
  simp only [] at h
  split at h
  · simp only [pure, Except.pure, Except.ok.injEq] at h
    rw [← h]
    exact Or.inr ⟨rfl, rfl⟩
  · cases hsel : select_candidates sims valid db (pyToLower q) with
    | error e => rw [hsel] at h; simp [bind, Except.bind] at h
    | ok sel =>
      rw [hsel] at h
      simp only [bind, Except.bind] at h
      cases hgen : get_response c md [] (pyToLower q) sel.1 with
      | error e => rw [hgen] at h; simp at h
      | ok gen =>
        rw [hgen] at h
        have hhtml := h1 c md [] (pyToLower q) sel.1 gen hgen
        simp only [pure, Except.pure, Except.ok.injEq] at h
        rw [← h]
        refine Or.inl ⟨?_, ?_⟩
        · rw [if_pos hhtml]
          exact hhtml
        · rw [if_pos hhtml]
          simp

/-- Executable success test for `Except`, used by witnesses. -/
def isOkE : Except ε α → Bool
  | .ok _ => true
  | .error _ => false

/-- C3 amended witness: a concrete listing-query run of the endpoint ends in
an HTML answer with a generation call. -/
theorem responses_html_except_invalid_witness :
    ∃ out, defects_response (fun _ => "A.") id id (fun _ => []) ["SCRUM-15"]
        [rec15] "list" = Except.ok out ∧
      ((out.response.content_type = "html" ∧ out.promptSent ≠ none) ∨
        (out.response.content_type = "markdown" ∧ out.promptSent = none)) := by
  cases hg : defects_response (fun _ => "A.") id id (fun _ => []) ["SCRUM-15"]
      [rec15] "list" with
  | error e =>
    have hok : isOkE (defects_response (fun _ => "A.") id id (fun _ => [])
        ["SCRUM-15"] [rec15] "list") = true := by rfl
    rw [hg] at hok
    exact absurd hok (by simp [isOkE])
  | ok out =>
    exact ⟨out, rfl,
      responses_html_except_invalid.2 (fun _ => "A.") id id (fun _ => [])
        ["SCRUM-15"] [rec15] "list" out hg⟩

/-- C4 amended: every completed `get_response` call — whatever the prompt
shape — appends exactly the one turn `(query, completion)` to the context
window, with the `push_turn` eviction discipline; the window is left
unchanged only when composition raises or on the `InvalidIdentifier`
short-circuit, which never reaches `get_response`. -/
theorem get_response_appends_one_turn :
    ∀ (complete md : String → String) (ctx : List Turn) (q : String)
      (ds : List Defect) (g : GenResult),
      get_response complete md ctx q ds = Except.ok g →
      g.context_window = push_turn ctx { user := q, assistant := complete g.prompt } := by
  intro c md ctx q ds g h
  cases hcp : create_prompt ctx q ds with
  | error e => simp [get_response, hcp, bind, Except.bind] at h
  | ok p =>
    simp [get_response, hcp, bind, Except.bind, pure, Except.pure] at h
    rw [← h]

/-- C4 amended witness: a concrete non-free-form exchange appends its turn. -/
theorem get_response_appends_one_turn_witness :
    ∃ g, get_response (fun _ => "A.") id [] "scrum-15 root cause" [rec15] =
        Except.ok g ∧
      g.context_window =
        push_turn [] { user := "scrum-15 root cause", assistant := "A." } := by
  cases hg : get_response (fun _ => "A.") id [] "scrum-15 root cause" [rec15] with
  | error e =>
    have hok : isOkE (get_response (fun _ => "A.") id []
        "scrum-15 root cause" [rec15]) = true := by rfl
    rw [hg] at hok
    exact absurd hok (by simp [isOkE])
  | ok g =>
    refine ⟨g, rfl, ?_⟩
    exact get_response_appends_one_turn (fun _ => "A.") id [] "scrum-15 root cause"
      [rec15] g hg

theorem hasIdToken_of_scrumIds {q id : String}
    (h : (scrumIds q).head? = some id) : hasIdToken q = true := by
  cases hs : scrumIds q with
  | nil => rw [hs] at h; cases h
  | cons x rest =>
    rw [hs] at h
    have hx : x ∈ scrumIds q := by rw [hs]; exact List.mem_cons_self _ _
    have := List.mem_filter.mp hx
    obtain ⟨w, hw, hwx⟩ := List.mem_map.mp this.1
    refine List.any_eq_true.mpr ⟨w, hw, ?_⟩
    rw [hwx, this.2]
    rfl

/-- C5 amended: whenever the query carries a `SCRUM-` token whose identifier
matches a candidate record (and the query is not service- or error-typed),
the composer produces the *generic* `DirectLookup` card — the identifier-card
check precedes both keyword-gated variants, so a co-occurring solution or
root-cause keyword never reaches its dedicated card. -/
theorem generic_card_takes_priority :
    ∀ (ctx : List Turn) (q : String) (ds : List Defect) (id : String) (d : Defect),
      get_query_type q ≠ "service" → get_query_type q ≠ "error" →
      (scrumIds q).head? = some id →
      findDefect (some id) ds = some d →
      create_prompt ctx q ds = direct_card id d := by
  intro ctx q ds id d hsv herr hshead hfind
  unfold create_prompt create_prompt_core
  simp only [] 
  rw [if_neg hsv, if_neg herr]
  simp only [bind, Except.bind]
  rw [if_pos (hasIdToken_of_scrumIds hshead), hshead, hfind]

/-- C5 amended witness: query `"scrum-15 solution"` with `SCRUM-15` present
resolves to the generic card. -/
theorem generic_card_takes_priority_witness :
    get_query_type "scrum-15 solution" ≠ "service" ∧
    get_query_type "scrum-15 solution" ≠ "error" ∧
    (scrumIds "scrum-15 solution").head? = some "SCRUM-15" ∧
    findDefect (some "SCRUM-15") [rec15] = some rec15 ∧
    create_prompt [] "scrum-15 solution" [rec15] = direct_card "SCRUM-15" rec15 :=
  ⟨by decide, by decide, by rfl, by rfl,
   generic_card_takes_priority [] "scrum-15 solution" [rec15] "SCRUM-15" rec15
     (by decide) (by decide) (by rfl) (by rfl)⟩

/-- C6 amended: a query containing a root-cause/solution keyword but no
`SCRUM-` token with a valid identifier does *not* fall through to similarity
retrieval: the candidate set stays the entire record collection and
`semantic_search` is never invoked. -/
theorem keyword_without_valid_id_keeps_collection :
    ∀ (sims : String → List ℚ) (valid : List String) (db : List Defect) (q : String),
      keyword_special.any (fun kw => strContainsB q kw) = true →
      (∀ id, (scrumIds q).head? = some id → valid.contains id = false) →
      select_candidates sims valid db q = Except.ok (db, false) := by
  intro sims valid db q hkw hid
  unfold select_candidates
  rw [if_pos hkw]
  cases hh : (scrumIds q).head? with
  | none => rfl
  | some id =>
    have hc : valid.contains id = false := hid id hh
    change (if valid.contains id = true then
        Except.ok (db.filter (fun d => d.bug_id == id), false)
      else Except.ok (db, false)) = Except.ok (db, false)
    rw [hc]
    simp

/-- C6 amended witness: `"why is it failing"` over a two-record collection. -/
theorem keyword_without_valid_id_keeps_collection_witness :
    keyword_special.any (fun kw => strContainsB "why is it failing" kw) = true ∧
    select_candidates (fun _ => [1, 1]) ["SCRUM-15", "SCRUM-2"] [rec15, rec2]
        "why is it failing" = Except.ok ([rec15, rec2], false) :=
  ⟨by rfl,
   keyword_without_valid_id_keeps_collection (fun _ => [1, 1])
     ["SCRUM-15", "SCRUM-2"] [rec15, rec2] "why is it failing" (by rfl)
     (fun id h => by
       rw [show (scrumIds "why is it failing").head? = none from rfl] at h
       cases h)⟩

/-- C7 amended: the `DirectLookup` and `RootCauseLookup` cards guard the
root-cause access with `isinstance` and render a bare-string `root_cause` as
the description without raising; only `SolutionLookup` (line 200) lacks the
guard and raises. -/
theorem bare_root_cause_tolerated :
    ∀ (id : String) (d : Defect) (s sum : String),
      d.rootCause = some (.bare s) → s ≠ "" → d.summary = some sum →
      (∃ t, direct_card id d = Except.ok t ∧
        StrContains t ("Root Cause: " ++ s)) ∧
      (∃ t, root_cause_card id d = Except.ok t ∧
        StrContains t ("Root Cause: " ++ s)) := by
  intro id d s sum hrc hs hsum
  obtain ⟨bid, dsum, down, dsol, drc, dst, durl, derr⟩ := d
  simp only [] at hrc hsum
  subst hrc hsum
  have hpy : pyOr (rcDescOfGet (some (.bare s))) "No root cause specified" = s := by
    simp [rcDescOfGet, pyOr, hs]
  constructor
  · refine ⟨_, rfl, ?_⟩
    show StrContains ("Defect Details for [" ++ id ++ "](" ++
      urljoin jira_base_url id ++ "):\n\nSummary: " ++ sum ++ "\n\n" ++
      "Root Cause: " ++ pyOr (rcDescOfGet (some (.bare s))) "No root cause specified" ++
      "\n\n" ++ "Solution: " ++ dsol.getD "No solution specified" ++ "\n\n" ++
      "Owner: " ++ down.getD "Unassigned" ++ "\n\n" ++
      "Status: " ++ dst.getD "Unknown") ("Root Cause: " ++ s)
    rw [hpy]
    apply strContains_of_data
    refine ⟨("Defect Details for [" ++ id ++ "](" ++ urljoin jira_base_url id ++
      "):\n\nSummary: " ++ sum ++ "\n\n").data,
      ("\n\n" ++ "Solution: " ++ dsol.getD "No solution specified" ++ "\n\n" ++
      "Owner: " ++ down.getD "Unassigned" ++ "\n\n" ++
      "Status: " ++ dst.getD "Unknown").data, ?_⟩
    simp [List.append_assoc]
  · refine ⟨_, rfl, ?_⟩
    show StrContains ("Root Cause Analysis for [" ++ id ++ "](" ++
      urljoin jira_base_url id ++ "):\n\nDefect Summary: " ++ sum ++ "\n\n" ++
      "Root Cause: " ++ pyOr (rcDescOfGet (some (.bare s))) "No root cause specified" ++
      "\n\n" ++ "Solution: " ++ (some (.bare s) : Option RootCauseVal).elim
        (dsol.getD "No solution provided") (fun _ => dsol.getD "No solution provided") ++
      "\n\n" ++ "Owner: " ++ down.getD "Unassigned") ("Root Cause: " ++ s)
    rw [hpy]
    apply strContains_of_data
    refine ⟨("Root Cause Analysis for [" ++ id ++ "](" ++ urljoin jira_base_url id ++
      "):\n\nDefect Summary: " ++ sum ++ "\n\n").data,
      ("\n\n" ++ "Solution: " ++ (some (.bare s) : Option RootCauseVal).elim
        (dsol.getD "No solution provided") (fun _ => dsol.getD "No solution provided") ++
      "\n\n" ++ "Owner: " ++ down.getD "Unassigned").data, ?_⟩
    simp [List.append_assoc]

/-- C7 amended witness: the bare-string record renders its root cause through
both guarded cards. -/
theorem bare_root_cause_tolerated_witness :
    recBare.rootCause = some (.bare "rebalance storm") ∧
    "rebalance storm" ≠ "" ∧
    recBare.summary = some "Consumer rebalance storm" ∧
    ((∃ t, direct_card "SCRUM-7" recBare = Except.ok t ∧
        StrContains t ("Root Cause: " ++ "rebalance storm")) ∧
     (∃ t, root_cause_card "SCRUM-7" recBare = Except.ok t ∧
        StrContains t ("Root Cause: " ++ "rebalance storm"))) :=
  ⟨rfl, by decide, rfl,
   bare_root_cause_tolerated "SCRUM-7" recBare "rebalance storm"
     "Consumer rebalance storm" rfl (by decide) rfl⟩

/-- C8 amended: on a record that has a summary but is missing owner,
solution, root cause and status, each identifier card renders its documented
sentinel value without raising; a record missing the summary itself raises
`KeyError` instead (see the counterexample). -/
theorem missing_fields_render_sentinels :
    ∀ (id bid sum : String),
      (∃ t, direct_card id ⟨bid, some sum, none, none, none, none, none, none⟩ =
          Except.ok t ∧
        StrContains t "Root Cause: No root cause specified" ∧
        StrContains t "Solution: No solution specified" ∧
        StrContains t "Owner: Unassigned" ∧
        StrContains t "Status: Unknown") ∧
      (∃ t, root_cause_card id ⟨bid, some sum, none, none, none, none, none, none⟩ =
          Except.ok t ∧
        StrContains t "Root Cause: No root cause specified" ∧
        StrContains t "Solution: No solution provided" ∧
        StrContains t "Owner: Unassigned") ∧
      (∃ t, solution_card id ⟨bid, some sum, none, none, none, none, none, none⟩ =
          Except.ok t ∧
        StrContains t "Solution: No solution specified" ∧
        StrContains t "Root Cause: N/A" ∧
        StrContains t "Owner: Unassigned") := by
  intro id bid sum
  refine ⟨⟨"Defect Details for [" ++ id ++ "](" ++ urljoin jira_base_url id ++
      "):\n\nSummary: " ++ sum ++ "\n\n" ++ "Root Cause: " ++
      "No root cause specified" ++ "\n\n" ++ "Solution: " ++
      "No solution specified" ++ "\n\n" ++ "Owner: " ++ "Unassigned" ++
      "\n\n" ++ "Status: " ++ "Unknown", rfl, ?_, ?_, ?_, ?_⟩,
    ⟨"Root Cause Analysis for [" ++ id ++ "](" ++ urljoin jira_base_url id ++
      "):\n\nDefect Summary: " ++ sum ++ "\n\n" ++ "Root Cause: " ++
      "No root cause specified" ++ "\n\n" ++ "Solution: " ++
      "No solution provided" ++ "\n\n" ++ "Owner: " ++ "Unassigned", rfl,
      ?_, ?_, ?_⟩,
    ⟨"Solution Details for [" ++ id ++ "](" ++ urljoin jira_base_url id ++
      "):\n\nDefect Summary: " ++ sum ++ "\n\n" ++ "Solution: " ++
      "No solution specified" ++ "\n\n" ++ "Root Cause: " ++ "N/A" ++ "\n" ++
      "Owner: " ++ "Unassigned", rfl, ?_, ?_, ?_⟩⟩
  · apply strContains_of_data
    refine ⟨("Defect Details for [" ++ id ++ "](" ++ urljoin jira_base_url id ++
      "):\n\nSummary: " ++ sum ++ "\n\n").data,
      ("\n\n" ++ "Solution: " ++ "No solution specified" ++ "\n\n" ++ "Owner: " ++
       "Unassigned" ++ "\n\n" ++ "Status: " ++ "Unknown").data, ?_⟩
    rw [show ("Root Cause: No root cause specified" : String).data =
      ("Root Cause: " : String).data ++ ("No root cause specified" : String).data
      from by decide]
    simp [List.append_assoc]
  · apply strContains_of_data
    refine ⟨("Defect Details for [" ++ id ++ "](" ++ urljoin jira_base_url id ++
      "):\n\nSummary: " ++ sum ++ "\n\n" ++ "Root Cause: " ++
      "No root cause specified" ++ "\n\n").data,
      ("\n\n" ++ "Owner: " ++ "Unassigned" ++ "\n\n" ++ "Status: " ++
       "Unknown").data, ?_⟩
    rw [show ("Solution: No solution specified" : String).data =
      ("Solution: " : String).data ++ ("No solution specified" : String).data
      from by decide]
    simp [List.append_assoc]
  · apply strContains_of_data
    refine ⟨("Defect Details for [" ++ id ++ "](" ++ urljoin jira_base_url id ++
      "):\n\nSummary: " ++ sum ++ "\n\n" ++ "Root Cause: " ++
      "No root cause specified" ++ "\n\n" ++ "Solution: " ++
      "No solution specified" ++ "\n\n").data,
      ("\n\n" ++ "Status: " ++ "Unknown").data, ?_⟩
    rw [show ("Owner: Unassigned" : String).data =
      ("Owner: " : String).data ++ ("Unassigned" : String).data from by decide]
    simp [List.append_assoc]
  · apply strContains_of_data
    refine ⟨("Defect Details for [" ++ id ++ "](" ++ urljoin jira_base_url id ++
      "):\n\nSummary: " ++ sum ++ "\n\n" ++ "Root Cause: " ++
      "No root cause specified" ++ "\n\n" ++ "Solution: " ++
      "No solution specified" ++ "\n\n" ++ "Owner: " ++ "Unassigned" ++
      "\n\n").data, [], ?_⟩
    rw [show ("Status: Unknown" : String).data =
      ("Status: " : String).data ++ ("Unknown" : String).data from by decide]
    simp [List.append_assoc]
  · apply strContains_of_data
    refine ⟨("Root Cause Analysis for [" ++ id ++ "](" ++ urljoin jira_base_url id ++
      "):\n\nDefect Summary: " ++ sum ++ "\n\n").data,
      ("\n\n" ++ "Solution: " ++ "No solution provided" ++ "\n\n" ++ "Owner: " ++
       "Unassigned").data, ?_⟩
    rw [show ("Root Cause: No root cause specified" : String).data =
      ("Root Cause: " : String).data ++ ("No root cause specified" : String).data
      from by decide]
    simp [List.append_assoc]
  · apply strContains_of_data
    refine ⟨("Root Cause Analysis for [" ++ id ++ "](" ++ urljoin jira_base_url id ++
      "):\n\nDefect Summary: " ++ sum ++ "\n\n" ++ "Root Cause: " ++
      "No root cause specified" ++ "\n\n").data,
      ("\n\n" ++ "Owner: " ++ "Unassigned").data, ?_⟩
    rw [show ("Solution: No solution provided" : String).data =
      ("Solution: " : String).data ++ ("No solution provided" : String).data
      from by decide]
    simp [List.append_assoc]
  · apply strContains_of_data
    refine ⟨("Root Cause Analysis for [" ++ id ++ "](" ++ urljoin jira_base_url id ++
      "):\n\nDefect Summary: " ++ sum ++ "\n\n" ++ "Root Cause: " ++
      "No root cause specified" ++ "\n\n" ++ "Solution: " ++
      "No solution provided" ++ "\n\n").data, [], ?_⟩
    rw [show ("Owner: Unassigned" : String).data =
      ("Owner: " : String).data ++ ("Unassigned" : String).data from by decide]
    simp [List.append_assoc]
  · apply strContains_of_data
    refine ⟨("Solution Details for [" ++ id ++ "](" ++ urljoin jira_base_url id ++
      "):\n\nDefect Summary: " ++ sum ++ "\n\n").data,
      ("\n\n" ++ "Root Cause: " ++ "N/A" ++ "\n" ++ "Owner: " ++
       "Unassigned").data, ?_⟩
    rw [show ("Solution: No solution specified" : String).data =
      ("Solution: " : String).data ++ ("No solution specified" : String).data
      from by decide]
    simp [List.append_assoc]
  · apply strContains_of_data
    refine ⟨("Solution Details for [" ++ id ++ "](" ++ urljoin jira_base_url id ++
      "):\n\nDefect Summary: " ++ sum ++ "\n\n" ++ "Solution: " ++
      "No solution specified" ++ "\n\n").data,
      ("\n" ++ "Owner: " ++ "Unassigned").data, ?_⟩
    rw [show ("Root Cause: N/A" : String).data =
      ("Root Cause: " : String).data ++ ("N/A" : String).data from by decide]
    simp [List.append_assoc]
  · apply strContains_of_data
    refine ⟨("Solution Details for [" ++ id ++ "](" ++ urljoin jira_base_url id ++
      "):\n\nDefect Summary: " ++ sum ++ "\n\n" ++ "Solution: " ++
      "No solution specified" ++ "\n\n" ++ "Root Cause: " ++ "N/A" ++
      "\n").data, [], ?_⟩
    rw [show ("Owner: Unassigned" : String).data =
      ("Owner: " : String).data ++ ("Unassigned" : String).data from by decide]
    simp [List.append_assoc]

/-! ## C1: the invalid-identifier short-circuit -/

/-- C1: whenever the (lowercased) query has a whitespace-separated token
that, uppercased, starts with `SCRUM-` or `INC` and is not among the valid
identifiers, the endpoint answers with the `InvalidIdentifier` markdown
message — containing that token's uppercased form and every valid
identifier — and neither the similarity search nor the generation provider
is invoked. -/
theorem invalid_id_short_circuit :
    ∀ (complete md sanitize : String → String) (sims : String → List ℚ)
      (valid : List String) (db : List Defect) (q tok : String),
      tok ∈ pySplit (pyToLower q) →
      (pyStartsWith "SCRUM-" (pyToUpper tok) = true ∨
        pyStartsWith "INC" (pyToUpper tok) = true) →
      valid.contains (pyToUpper tok) = false →
      ∃ out, defects_response complete md sanitize sims valid db q = Except.ok out ∧
        out.response.content_type = "markdown" ∧
        StrContains out.response.message (pyToUpper tok) ∧
        (∀ v ∈ valid, StrContains out.response.message v) ∧
        out.promptSent = none ∧ out.searched = false := by
  intro c md sz sims valid db q tok htok hpre hval
  have hmem : pyToUpper tok ∈ mentionedIdTokens (pyToLower q) := by
    unfold mentionedIdTokens
    rw [List.mem_dedup]
    refine List.mem_map.mpr ⟨tok, List.mem_filter.mpr ⟨htok, ?_⟩, rfl⟩
    rcases hpre with h | h <;> simp [h]
  have hinv : pyToUpper tok ∈ (mentionedIdTokens (pyToLower q)).filter
      (fun id => ¬ valid.contains id) := by
    refine List.mem_filter.mpr ⟨hmem, ?_⟩
    simpa using hval
  have hne : ((mentionedIdTokens (pyToLower q)).filter
      (fun id => ¬ valid.contains id)).isEmpty = false := by
    cases hemp : ((mentionedIdTokens (pyToLower q)).filter
        (fun id => ¬ valid.contains id)).isEmpty
    · rfl
    · exfalso
      have hnil : (mentionedIdTokens (pyToLower q)).filter
          (fun id => ¬ valid.contains id) = [] := by simpa using hemp
      rw [hnil] at hinv
      cases hinv
  unfold defects_response defects_response_session
  simp only []
  rw [if_pos (show ¬ (((mentionedIdTokens (pyToLower q)).filter
      (fun id => ¬ valid.contains id)).isEmpty = true) from by rw [hne]; simp)]
  refine ⟨_, rfl, rfl, ?_, ?_, rfl, rfl⟩
  · exact strContains_append_right _ (strContains_append_right _
      (strContains_append_right _
        (strContains_append_left _ (strContains_joinSep ", " hinv))))
  · intro v hv
    have hv2 : v ∈ pySortDesc (fun a b => strLtB b.data a.data) valid.dedup :=
      mem_pySortDesc.mpr (List.mem_dedup.mpr hv)
    exact strContains_append_right _
      (strContains_append_left _ (strContains_joinSep ", " hv2))

/-- C1 witness: the spec §8 scenario `"SCRUM-99 why"` with only `SCRUM-15`
valid. -/
theorem invalid_id_short_circuit_witness :
    ("scrum-99" ∈ pySplit (pyToLower "SCRUM-99 why") ∧
     pyStartsWith "SCRUM-" (pyToUpper "scrum-99") = true ∧
     (["SCRUM-15"] : List String).contains (pyToUpper "scrum-99") = false) ∧
    (∃ out, defects_response (fun _ => "A.") id id (fun _ => []) ["SCRUM-15"]
        [rec15] "SCRUM-99 why" = Except.ok out ∧
      out.response.content_type = "markdown" ∧
      StrContains out.response.message (pyToUpper "scrum-99") ∧
      (∀ v ∈ ["SCRUM-15"], StrContains out.response.message v) ∧
      out.promptSent = none ∧ out.searched = false) :=
  ⟨⟨by decide, by decide, by decide⟩,
   invalid_id_short_circuit (fun _ => "A.") id id (fun _ => []) ["SCRUM-15"]
     [rec15] "SCRUM-99 why" "scrum-99" (by decide) (Or.inl (by decide))
     (by decide)⟩

end BugBusters
